import Mathlib

/-!
Verification of the metrics-aggregation service in `main.py`
(CollectMetrics).  Python floats are modelled as rationals (`ℚ`): every
arithmetic operation the code performs (sums, divisions guarded by
positivity tests, multiplication by 100) is exact on the decimal inputs
considered here, so `ℚ` is a faithful model away from binary-rounding
noise, which no claim depends on.  HTTP calls are modelled by explicit
outcome values (`HttpResp`), and `raise HTTPException` by `Except`.
-/

/-- A Python scalar as it can appear in an upstream JSON field:
a string, a number, or `null`. -/
inductive PyVal where
  | pstr (s : String)
  | pnum (q : ℚ)
  | pnull
deriving DecidableEq, Repr

/-- Digits of a decimal literal folded into a natural number. -/
def digitsToNat (l : List Char) : Nat :=
  l.foldl (fun n c => n * 10 + (c.toNat - 48)) 0

/-- Unsigned decimal literal: digits, optionally followed by `.` and more
digits (at least one digit overall), as accepted by Python `float`. -/
def parseUnsigned (cs : List Char) : Option ℚ :=
  let intPart := cs.takeWhile (·.isDigit)
  let rest := cs.dropWhile (·.isDigit)
  match rest with
  | [] => if intPart.isEmpty then none else some (digitsToNat intPart : ℚ)
  | '.' :: frac =>
      if frac.all (·.isDigit) && (!intPart.isEmpty || !frac.isEmpty) then
        some ((digitsToNat intPart : ℚ) + (digitsToNat frac : ℚ) / (10 : ℚ) ^ frac.length)
      else none
  | _ => none

/-- Embedding of Python `float(s)` on strings, restricted to plain decimal
literals with optional sign and surrounding whitespace (the only shapes the
upstream numeric-string fields take; exponents, `inf`, `nan` are out of
scope for every claim).  `none` models `ValueError`. -/
def parseDecimal (s : String) : Option ℚ :=
  match s.trim.toList with
  | '-' :: rest => (parseUnsigned rest).map (fun q => -q)
  | '+' :: rest => parseUnsigned rest
  | cs => parseUnsigned cs

/-- Embedding of the repeated pattern
`try: x = float(item.get(k, 0)) except: x = 0.0` of `main.py`:
an absent key gives the default `0`; a number passes through; a numeric
string is parsed; anything else (`null`, malformed string) makes `float`
raise, so the `except` arm yields `0.0`. -/
def tryFloat : Option PyVal → ℚ
  | none => 0
  | some (.pnum q) => q
  | some (.pstr s) => (parseDecimal s).getD 0
  | some .pnull => 0

/-- Python `int(f)` on a float: truncation toward zero
(`Int.tdiv` of numerator by denominator is T-division). -/
def pyInt (q : ℚ) : ℤ := Int.tdiv q.num q.den

/-- Floor of a rational, computably (`Int.fdiv` floors). -/
def ratFloor (q : ℚ) : ℤ := Int.fdiv q.num q.den

/-- Round to the nearest integer, ties to the even integer — the rounding
of Python `format(v, ".2f")` on exactly representable halves. -/
def roundHalfEven (q : ℚ) : ℤ :=
  let f := ratFloor q
  let r := q - (f : ℚ)
  if r < 1/2 then f
  else if 1/2 < r then f + 1
  else if f % 2 = 0 then f else f + 1

/-- Left-pad to two digits, as the cents part of a `%.2f` rendering. -/
def twoDigits (n : Nat) : String :=
  if n < 10 then "0" ++ toString n else toString n

/-- Python `f"{value:.2f}"` on a nonnegative value: round the value in
cents half-to-even and print `units.cents`. -/
def formatFixed2Nonneg (q : ℚ) : String :=
  let c := (roundHalfEven (q * 100)).toNat
  toString (c / 100) ++ "." ++ twoDigits (c % 100)

/-- Embedding of `format_currency` (`main.py` line 27): two-decimal fixed
rendering, sign handled as Python does by prefixing `-`. -/
def format_currency (q : ℚ) : String :=
  if q < 0 then "-" ++ formatFixed2Nonneg (-q) else formatFixed2Nonneg q

/-- Embedding of `format_percentage` (`main.py` line 23): `format_currency`
with a `%` suffix. -/
def format_percentage (q : ℚ) : String :=
  format_currency q ++ "%"

/-- The guarded CTR of `main.py` lines 151 and 197:
`clicks / impressions * 100` when `impressions > 0`, else `0.0`. -/
def ctr_calc (clicks impressions : ℚ) : ℚ :=
  if impressions > 0 then clicks / impressions * 100 else 0

/-- The guarded CPC of `main.py` line 199:
`spend / clicks` when `clicks > 0`, else `0.0`. -/
def cpc_calc (spend clicks : ℚ) : ℚ :=
  if clicks > 0 then spend / clicks else 0

/-- One upstream action record: `{action_type: ..., value: ...}`, each key
possibly absent. -/
structure ActionRec where
  action_type : Option String
  value : Option PyVal
deriving DecidableEq, Repr

/-- One upstream insights row; each consumed key may be absent.
Unconsumed keys are irrelevant to the code and omitted. -/
structure InsightItem where
  impressions : Option PyVal
  clicks : Option PyVal
  ctr : Option PyVal
  cpc : Option PyVal
  spend : Option PyVal
  actions : Option (List ActionRec)
deriving DecidableEq, Repr

/-- Body of an insights response: `{"data": [...]}` with the `data` key
possibly absent (`none`). -/
structure InsightsJson where
  data : Option (List InsightItem)
deriving DecidableEq, Repr

/-- One campaign of the listing: `{"id": ..., "name": ...}`, keys possibly
absent (the code reads them with `camp.get(k, "")`). -/
structure Campaign where
  id : Option String
  name : Option String
deriving DecidableEq, Repr

/-- Body of the campaigns-listing response. -/
structure CampaignsJson where
  data : Option (List Campaign)
deriving DecidableEq, Repr

/-- Outcome of one HTTP GET as seen by the `fetch` helper of `main.py`
(lines 60–69): either a response with a status, a body text and a decoded
JSON value, or a transport failure (timeout, DNS, refused connection)
whose exception renders as `msg`. -/
inductive HttpResp (α : Type) where
  | resp (status : Nat) (text : String) (json : α)
  | transportErr (msg : String)

/-- Embedding of the `fetch` helper (`main.py` lines 60–69): a 200
response yields its JSON; any other status raises
`Exception(f"Erro {status}: {text}")`; a transport error propagates its
own exception message. -/
def fetchJson {α : Type} : HttpResp α → Except String α
  | .resp 200 _ j => .ok j
  | .resp s t _ => .error ("Erro " ++ toString s ++ ": " ++ t)
  | .transportErr m => .error m

/-- The per-campaign object built by `get_campaign_insights`
(`main.py` lines 120–183).  The three `Bag` fields model the auxiliary
keys `_spend`, `_conversions`, `_engagement`, present (`some`) only when
the success branch stored them. -/
structure CampaignObj where
  id : String
  nome_da_campanha : String
  cpc : String
  impressions : ℤ
  clicks : ℤ
  ctr : String
  spendBag : Option ℚ
  conversionsBag : Option ℚ
  engagementBag : Option ℚ
deriving DecidableEq, Repr

/-- The final result dictionary of `fetch_metrics`
(`main.py` lines 218–229). -/
structure AggregateResult where
  active_campaigns : Nat
  total_impressions : ℤ
  total_clicks : ℤ
  ctr : String
  cpc : String
  conversions : ℚ
  spent : ℚ
  engajamento : ℚ
  recent_campaigns_total : Nat
  recent_campaignsMA : List CampaignObj
deriving DecidableEq, Repr

/-- A raised `HTTPException(status_code, detail)`. -/
structure HTTPErr where
  status : Nat
  detail : String
deriving DecidableEq, Repr

/-- The action-reduction loop of `main.py` (lines 166–176, same shape at
lines 105–115): coerce each record's `value`, add it to the conversions
accumulator when `action_type == "offsite_conversion"` and to the
engagement accumulator when it is one of the three engagement labels. -/
def reduceActions (actions : Option (List ActionRec)) : ℚ × ℚ :=
  (actions.getD []).foldl
    (fun acc a =>
      let v := tryFloat a.value
      let conv := if a.action_type = some "offsite_conversion" then acc.1 + v else acc.1
      let eng :=
        if a.action_type = some "page_engagement" ∨ a.action_type = some "post_engagement" ∨
            a.action_type = some "post_reaction" then acc.2 + v
        else acc.2
      (conv, eng))
    (0, 0)

/-- The default campaign object initialised at `main.py` lines 123–130:
zero counts, `ctr = "0.00%"`, `cpc = "0.00"`, no auxiliary bag keys. -/
def zeroCampaignObj (camp : Campaign) : CampaignObj :=
  { id := camp.id.getD ""
    nome_da_campanha := camp.name.getD ""
    cpc := "0.00"
    impressions := 0
    clicks := 0
    ctr := "0.00%"
    spendBag := none
    conversionsBag := none
    engagementBag := none }

/-- Embedding of `get_campaign_insights` (`main.py` lines 120–183).
The function starts from the default object, fetches the campaign's
insights keyed by its id, and on a 200 response with a nonempty `data`
list fills in the coerced numbers, the computed CTR, the upstream-copied
CPC and the auxiliary bag; every failure (non-200, transport error) and
the empty/absent-`data` case leave the default object, because the
`except` clause at line 181 swallows the exception.  Total by
construction: it never raises. -/
def get_campaign_insights (fetchCamp : String → HttpResp InsightsJson)
    (camp : Campaign) : CampaignObj :=
  let campaign_id := camp.id.getD ""
  let dflt : CampaignObj := zeroCampaignObj camp
  match fetchJson (fetchCamp campaign_id) with
  | .error _ => dflt
  | .ok j =>
    match j.data with
    | none => dflt
    | some [] => dflt
    | some (item :: _) =>
      let camp_impressions := tryFloat item.impressions
      let camp_clicks := tryFloat item.clicks
      let ctr_value := ctr_calc camp_clicks camp_impressions
      let camp_cpc := tryFloat item.cpc
      let camp_spend := tryFloat item.spend
      let reduced := reduceActions item.actions
      { dflt with
        impressions := pyInt camp_impressions
        clicks := pyInt camp_clicks
        ctr := format_percentage ctr_value
        cpc := format_currency camp_cpc
        spendBag := some camp_spend
        conversionsBag := some reduced.1
        engagementBag := some reduced.2 }

/-- The `camp.pop("_spend"/"_conversions"/"_engagement", None)` loop of
`main.py` lines 213–216, applied before the response is assembled. -/
def stripBag (c : CampaignObj) : CampaignObj :=
  { c with spendBag := none, conversionsBag := none, engagementBag := none }

/-- The body of `fetch_metrics` after both gates have passed
(`main.py` lines 117 and 186–229): fan the insight fetcher out over the
listing positionally (`asyncio.gather` returns results in argument
order), sum the per-campaign numbers (`camp.get(k, 0)` reads the bag keys
with default `0`), derive the account-level ratios with the guarded
formulas of lines 197–199, and assemble the response with the auxiliary
keys stripped. -/
def aggregate (campaigns_list : List Campaign)
    (fetchCamp : String → HttpResp InsightsJson) : AggregateResult :=
  let recent := campaigns_list.map (get_campaign_insights fetchCamp)
  let aggregated_impressions : ℤ := (recent.map (·.impressions)).sum
  let aggregated_clicks : ℤ := (recent.map (·.clicks)).sum
  let global_ctr_value := ctr_calc (aggregated_clicks : ℚ) (aggregated_impressions : ℚ)
  let global_spent := (recent.map (fun c => c.spendBag.getD 0)).sum
  let aggregated_cpc := cpc_calc global_spent (aggregated_clicks : ℚ)
  let global_conversions := (recent.map (fun c => c.conversionsBag.getD 0)).sum
  let global_engagement := (recent.map (fun c => c.engagementBag.getD 0)).sum
  { active_campaigns := campaigns_list.length
    total_impressions := aggregated_impressions
    total_clicks := aggregated_clicks
    ctr := format_percentage global_ctr_value
    cpc := format_currency aggregated_cpc
    conversions := global_conversions
    spent := global_spent
    engajamento := global_engagement
    recent_campaigns_total := recent.length
    recent_campaignsMA := recent.map stripBag }

/-- The upstream world one request sees: the outcome of the account-level
insights call, of the campaigns-listing call, and of the per-campaign
insights call for each campaign id (the URL depends only on the id). -/
structure Env where
  insightsResp : HttpResp InsightsJson
  campaignsResp : HttpResp CampaignsJson
  campaignInsights : String → HttpResp InsightsJson

/-- Embedding of `fetch_metrics` (`main.py` lines 31–232).  The
`asyncio.gather` of the two initial fetches raises the first failing
fetch's exception, converted to `HTTPException(502, "Erro de conexão: " + str(e))`
(lines 72–79); when both fail we take the insights call's error, matching
the argument order of the gather.  A 200 insights response whose `data`
is absent or empty raises `HTTPException(404, ...)` (lines 82–83).  The
account-level numbers parsed at lines 86–115 are unconditionally
overwritten at lines 203–210 and are therefore not modelled.  Otherwise
the result of `aggregate` is returned. -/
def fetch_metrics (env : Env) : Except HTTPErr AggregateResult :=
  match fetchJson env.insightsResp with
  | .error e => .error ⟨502, "Erro de conexão: " ++ e⟩
  | .ok ins =>
    match fetchJson env.campaignsResp with
    | .error e => .error ⟨502, "Erro de conexão: " ++ e⟩
    | .ok camps =>
      match ins.data with
      | none => .error ⟨404, "Nenhum dado de insights encontrado."⟩
      | some [] => .error ⟨404, "Nenhum dado de insights encontrado."⟩
      | some (_ :: _) => .ok (aggregate (camps.data.getD []) env.campaignInsights)

/-- The request body as read by the handler: `payload.get("account_id")`
and `payload.get("access_token")`, `none` when the key is absent. -/
structure Payload where
  account_id : Option String
  access_token : Option String
deriving DecidableEq, Repr

/-- Python truthiness test `not x` for an optional string:
true on `None` and on the empty string. -/
def pyFalsy : Option String → Bool
  | none => true
  | some s => s.isEmpty

/-- Embedding of the `/metrics` handler `get_metrics`
(`main.py` lines 234–253).  Missing or empty credentials are rejected
with 400 before the pipeline runs.  Otherwise `fetch_metrics` is awaited
inside `try: ... except Exception as e: raise HTTPException(500, str(e))`;
since FastAPI's `HTTPException` is itself an `Exception`, an
`HTTPException(s, d)` raised by the pipeline is caught there and
delivered as status 500 with detail `str(e) = f"{s}: {d}"` (Starlette's
`HTTPException.__str__`). -/
def get_metrics (payload : Payload) (env : Env) : Except HTTPErr AggregateResult :=
  if pyFalsy payload.account_id || pyFalsy payload.access_token then
    .error ⟨400, "É necessário fornecer 'account_id' e 'access_token' no body."⟩
  else
    match fetch_metrics env with
    | .ok r => .ok r
    | .error e => .error ⟨500, toString e.status ++ ": " ++ e.detail⟩

/-- The campaign listing a given environment carries, when its listing
call succeeds: `campaigns_data.get("data", [])`. -/
def listingOf (env : Env) : Option (List Campaign) :=
  match fetchJson env.campaignsResp with
  | .ok c => some (c.data.getD [])
  | .error _ => none

/-- Decides whether one per-campaign insights call ends in the recovered
branch of `get_campaign_insights`: the fetch fails (non-200 or transport
error) or succeeds with an absent or empty `data` list. -/
def failsOrEmpty (h : HttpResp InsightsJson) : Bool :=
  match fetchJson h with
  | .error _ => true
  | .ok j => (j.data.getD []).isEmpty

/-- Modelled from the spec: the source under `src/` has no truncation
code (only the fixed two-decimal `format_percentage`/`format_currency`);
the truncated-3-char mode of §4.3 lives in other revisions of this
repository.  First stage, shared by both variants: render a nonnegative
value truncated — never rounded — to one decimal place. -/
def truncate1dec (q : ℚ) : String :=
  toString (ratFloor q).toNat ++ "." ++ toString ((ratFloor (q * 10)) % 10).toNat

/-- Integer part of a nonnegative value, rendered. -/
def intPartStr (q : ℚ) : String := toString (ratFloor q).toNat

/-- Modelled from the spec: truncated-3-char CPC (§4.3).  If the
one-decimal rendering exceeds 3 characters, fall back to the truncated
integer part capped at 3 characters (spec: `147.2` gives `"147"`). -/
def truncate_cpc (q : ℚ) : String :=
  let s := truncate1dec q
  if s.length ≤ 3 then s else (intPartStr q).take 3

/-- Modelled from the spec: truncated-3-char CTR (§4.3), in the variant
the spec's worked examples pin down: the first 3-character budget applies
to the numeric part before the `%` is appended (spec §8.4:
`truncate_ctr(1.0) = "1.0%"`); on overflow, fall back to the integer part
with `%` re-appended, and if that still exceeds 3 characters, truncate
the rendered string once more so the digits-plus-`%` fit in 3 characters
(spec §4.3: `147.2` gives `"14%"`). -/
def truncate_ctr (q : ℚ) : String :=
  let s := truncate1dec q
  if s.length ≤ 3 then s ++ "%"
  else
    let t := intPartStr q ++ "%"
    if t.length ≤ 3 then t else (intPartStr q).take 2 ++ "%"

/-- Modelled from the spec: the claim's literal CTR rule, in which the
first 3-character check is applied to the rendered string already
including the `%` suffix. -/
def truncate_ctr_claim (q : ℚ) : String :=
  let s := truncate1dec q ++ "%"
  if s.length ≤ 3 then s
  else
    let t := intPartStr q ++ "%"
    if t.length ≤ 3 then t else (intPartStr q).take 2 ++ "%"

/-- Concrete insight row: 100 impressions (as a numeric string), 10
clicks, spend 5, one offsite-conversion action of value "2". -/
def itemA : InsightItem :=
  { impressions := some (.pstr "100"), clicks := some (.pnum 10), ctr := none
    cpc := some (.pstr "0.5"), spend := some (.pnum 5)
    actions := some [⟨some "offsite_conversion", some (.pstr "2")⟩] }

/-- Concrete insight row: 300 impressions, 15 clicks, spend 10, a
page-engagement action of value 4. -/
def itemB : InsightItem :=
  { impressions := some (.pnum 300), clicks := some (.pnum 15), ctr := none
    cpc := some (.pnum 2), spend := some (.pnum 10)
    actions := some [⟨some "page_engagement", some (.pnum 4)⟩] }

/-- Concrete campaigns for the three-campaign scenario. -/
def campW1 : Campaign := ⟨some "1", some "A"⟩

def campW2 : Campaign := ⟨some "2", some "B"⟩

def campW3 : Campaign := ⟨some "3", some "C"⟩

/-- Per-campaign outcomes for the three-campaign scenario: campaign "2"
times out, the others answer with one insight row each. -/
def fW : String → HttpResp InsightsJson := fun cid =>
  if cid = "1" then .resp 200 "" ⟨some [itemA]⟩
  else if cid = "2" then .transportErr "TimeoutError"
  else .resp 200 "" ⟨some [itemB]⟩

/-- Environment of the three-campaign scenario: both initial calls
succeed, the listing holds three campaigns, campaign "2" times out. -/
def envW : Env :=
  { insightsResp := .resp 200 "" ⟨some [itemB]⟩
    campaignsResp := .resp 200 "" ⟨some [campW1, campW2, campW3]⟩
    campaignInsights := fW }

/-- Environment in which both initial calls answer 200 but the
account-level insights body carries an empty `data` list. -/
def env404 : Env :=
  { insightsResp := .resp 200 "" ⟨some []⟩
    campaignsResp := .resp 200 "" ⟨some [campW1]⟩
    campaignInsights := fW }

/-- Environment whose campaign listing succeeds with an empty `data`
list. -/
def envEmptyListing : Env :=
  { insightsResp := .resp 200 "" ⟨some [itemB]⟩
    campaignsResp := .resp 200 "" ⟨some []⟩
    campaignInsights := fW }

/-- Concrete insight row whose upstream `cpc` field ("7.5") disagrees
with `spend / clicks = 10 / 5 = 2`. -/
def itemC4 : InsightItem :=
  { impressions := some (.pnum 100), clicks := some (.pnum 5), ctr := none
    cpc := some (.pstr "7.5"), spend := some (.pnum 10), actions := none }

/-- Per-campaign outcome serving `itemC4` for every campaign id. -/
def fC4 : String → HttpResp InsightsJson := fun _ => .resp 200 "" ⟨some [itemC4]⟩

/-- Inversion for a successful pipeline run: success means both initial
fetches returned 200, the account-insights `data` was nonempty, and the
result is `aggregate` of the listing. -/
theorem fetch_metrics_ok_inv (env : Env) (r : AggregateResult)
    (h : fetch_metrics env = .ok r) :
    ∃ L, listingOf env = some L ∧ r = aggregate L env.campaignInsights := by
  unfold fetch_metrics at h
  unfold listingOf
  cases hins : fetchJson env.insightsResp with
  | error e => rw [hins] at h; cases h
  | ok ins =>
    rw [hins] at h
    dsimp only at h
    cases hcamps : fetchJson env.campaignsResp with
    | error e => rw [hcamps] at h; cases h
    | ok camps =>
      rw [hcamps] at h
      cases hd : ins.data with
      | none => rw [hd] at h; cases h
      | some l =>
        rw [hd] at h
        dsimp only at h
        cases l with
        | nil => cases h
        | cons a t =>
          injection h with h
          exact ⟨camps.data.getD [], by simp [hcamps], h.symm⟩

/-- A recovered per-campaign call (failed fetch, or empty/absent data)
produces exactly the default zero object. -/
theorem get_campaign_insights_of_failsOrEmpty
    (f : String → HttpResp InsightsJson) (camp : Campaign)
    (h : failsOrEmpty (f (camp.id.getD "")) = true) :
    get_campaign_insights f camp = zeroCampaignObj camp := by
  unfold failsOrEmpty at h
  unfold get_campaign_insights
  cases hf : fetchJson (f (camp.id.getD "")) with
  | error e => simp [hf]
  | ok j =>
    rw [hf] at h
    dsimp only at h
    cases hd : j.data with
    | none => simp [hf, hd]
    | some l =>
      rw [hd] at h
      cases l with
      | nil => simp [hf, hd]
      | cons a t => simp at h

/-- Removing the element at index `i` removes exactly its contribution
from the mapped sum. -/
theorem sum_map_eraseIdx {α β : Type} [AddCommMonoid β] (g : α → β) :
    ∀ (L : List α) (i : Nat) (hi : i < L.length),
      (L.map g).sum = ((L.eraseIdx i).map g).sum + g (L.get ⟨i, hi⟩)
  | [], i, hi => absurd hi (by simp)
  | a :: t, 0, _ => by simp [add_comm]
  | a :: t, n + 1, hi => by
      have ih := sum_map_eraseIdx g t n (by simpa using hi)
      simp only [List.map_cons, List.sum_cons, List.eraseIdx_cons_succ, List.get_cons_succ]
      rw [ih, add_assoc]

/-- Field-level reading of `aggregate`: the counts come from the listing
and every account-level total is the sum of the corresponding
per-campaign field over the whole listing. -/
theorem aggregate_fields (L : List Campaign) (f : String → HttpResp InsightsJson) :
    (aggregate L f).active_campaigns = L.length ∧
    (aggregate L f).recent_campaigns_total = L.length ∧
    (aggregate L f).recent_campaignsMA.length = L.length ∧
    (aggregate L f).total_impressions
      = (L.map (fun c => (get_campaign_insights f c).impressions)).sum ∧
    (aggregate L f).total_clicks
      = (L.map (fun c => (get_campaign_insights f c).clicks)).sum ∧
    (aggregate L f).spent
      = (L.map (fun c => (get_campaign_insights f c).spendBag.getD 0)).sum ∧
    (aggregate L f).conversions
      = (L.map (fun c => (get_campaign_insights f c).conversionsBag.getD 0)).sum ∧
    (aggregate L f).engajamento
      = (L.map (fun c => (get_campaign_insights f c).engagementBag.getD 0)).sum := by
  refine ⟨rfl, ?_, ?_, ?_, ?_, ?_, ?_, ?_⟩ <;>
    (simp [aggregate, List.map_map]; try rfl)

/-- C5: for every response produced after the per-campaign fan-out,
`active_campaigns`, `recent_campaigns_total` and the length of the
returned `recent_campaignsMA` sequence are all equal to the number of
campaigns in the listing. -/
theorem response_count_invariant (env : Env) (r : AggregateResult)
    (h : fetch_metrics env = .ok r) :
    ∃ L, listingOf env = some L ∧
      r.active_campaigns = L.length ∧
      r.recent_campaigns_total = L.length ∧
      r.recent_campaignsMA.length = L.length := by
  obtain ⟨L, hL, rfl⟩ := fetch_metrics_ok_inv env r h
  obtain ⟨h1, h2, h3, _⟩ := aggregate_fields L env.campaignInsights
  exact ⟨L, hL, h1, h2, h3⟩

/-- Witness for C5: the three-campaign scenario. -/
theorem response_count_invariant_witness :
    fetch_metrics envW = .ok (aggregate [campW1, campW2, campW3] fW) ∧
    ∃ L, listingOf envW = some L ∧
      (aggregate [campW1, campW2, campW3] fW).active_campaigns = L.length ∧
      (aggregate [campW1, campW2, campW3] fW).recent_campaigns_total = L.length ∧
      (aggregate [campW1, campW2, campW3] fW).recent_campaignsMA.length = L.length :=
  ⟨rfl, response_count_invariant envW (aggregate [campW1, campW2, campW3] fW) rfl⟩

/-- C6: position `i` of the returned `recent_campaignsMA` sequence is the
(bag-stripped) insight record of campaign `i` of the listing — results
are collected positionally (`asyncio.gather` returns results in argument
order), not in completion order. -/
theorem recent_campaigns_order_preserved (env : Env) (r : AggregateResult)
    (L : List Campaign) (i : Nat)
    (h : fetch_metrics env = .ok r) (hL : listingOf env = some L)
    (hi : i < L.length) :
    r.recent_campaignsMA[i]? =
      some (stripBag (get_campaign_insights env.campaignInsights (L.get ⟨i, hi⟩))) := by
  obtain ⟨L2, hL2, rfl⟩ := fetch_metrics_ok_inv env r h
  rw [hL] at hL2
  injection hL2 with hL2
  subst hL2
  simp [aggregate, List.map_map, List.getElem?_map, List.getElem?_eq_getElem hi]

/-- Witness for C6: in the three-campaign scenario, position 1 of the
result is the record fetched for campaign "2". -/
theorem recent_campaigns_order_preserved_witness :
    fetch_metrics envW = .ok (aggregate [campW1, campW2, campW3] fW) ∧
    listingOf envW = some [campW1, campW2, campW3] ∧ 1 < 3 ∧
    (aggregate [campW1, campW2, campW3] fW).recent_campaignsMA[1]? =
      some (stripBag (get_campaign_insights fW campW2)) :=
  ⟨rfl, rfl, by decide,
    recent_campaigns_order_preserved envW (aggregate [campW1, campW2, campW3] fW)
      [campW1, campW2, campW3] 1 rfl rfl (by decide)⟩

/-- C7: both ratio computations are zero-denominator safe — a zero
denominator yields `0.0` (never a division error), and a positive
denominator yields `clicks/impressions*100` resp. `spend/clicks`. -/
theorem ratio_zero_denominator_guard (x : ℚ) :
    ctr_calc x 0 = 0 ∧ cpc_calc x 0 = 0 ∧
    (∀ d : ℚ, 0 < d → ctr_calc x d = x / d * 100 ∧ cpc_calc x d = x / d) := by
  refine ⟨by simp [ctr_calc], by simp [cpc_calc],
    fun d hd => ⟨by simp [ctr_calc, hd], by simp [cpc_calc, hd]⟩⟩

/-- Witness for C7 at `x = -5`, `d = 2`. -/
theorem ratio_zero_denominator_guard_witness :
    ctr_calc (-5) 0 = 0 ∧ cpc_calc (-5) 0 = 0 ∧ 0 < (2 : ℚ) ∧
    ctr_calc (-5) 2 = (-5) / 2 * 100 ∧ cpc_calc (-5) 2 = (-5) / 2 := by
  have h := ratio_zero_denominator_guard (-5)
  have h2 := h.2.2 2 (by norm_num)
  exact ⟨h.1, h.2.1, by norm_num, h2.1, h2.2⟩

/-- C1: a campaign whose insights fetch fails (non-2xx, transport error,
timeout) or returns an empty data list never raises (the fetcher is a
total function) and yields the zero-valued default record — impressions
0, clicks 0, ctr "0.00%", cpc "0.00", empty numeric bag — so it still
appears at its position in the returned list, the counts equal the full
listing length, and every account-level total equals the total over the
listing with that campaign removed (it contributes exactly zero). -/
theorem campaign_failure_recovered_zero_contribution
    (env : Env) (r : AggregateResult) (L : List Campaign) (i : Nat)
    (hok : fetch_metrics env = .ok r) (hL : listingOf env = some L)
    (hi : i < L.length)
    (hfail : failsOrEmpty (env.campaignInsights ((L.get ⟨i, hi⟩).id.getD "")) = true) :
    r.recent_campaignsMA[i]? = some (zeroCampaignObj (L.get ⟨i, hi⟩)) ∧
    r.active_campaigns = L.length ∧
    r.recent_campaigns_total = L.length ∧
    r.total_impressions = (aggregate (L.eraseIdx i) env.campaignInsights).total_impressions ∧
    r.total_clicks = (aggregate (L.eraseIdx i) env.campaignInsights).total_clicks ∧
    r.spent = (aggregate (L.eraseIdx i) env.campaignInsights).spent ∧
    r.conversions = (aggregate (L.eraseIdx i) env.campaignInsights).conversions ∧
    r.engajamento = (aggregate (L.eraseIdx i) env.campaignInsights).engajamento := by
  obtain ⟨L2, hL2, rfl⟩ := fetch_metrics_ok_inv env r hok
  rw [hL] at hL2
  injection hL2 with hL2
  subst hL2
  have hzero := get_campaign_insights_of_failsOrEmpty env.campaignInsights (L.get ⟨i, hi⟩) hfail
  refine ⟨?_, rfl, by simp [aggregate], ?_, ?_, ?_, ?_, ?_⟩
  · rw [List.get_eq_getElem] at hzero
    simp [aggregate, List.getElem?_map, List.getElem?_eq_getElem hi, hzero, stripBag,
      zeroCampaignObj]
  all_goals
    obtain ⟨-, -, -, e1, e2, e3, e4, e5⟩ := aggregate_fields L env.campaignInsights
    obtain ⟨-, -, -, f1, f2, f3, f4, f5⟩ :=
      aggregate_fields (L.eraseIdx i) env.campaignInsights
    first
    | (rw [e1, f1, sum_map_eraseIdx _ L i hi, hzero]; simp [zeroCampaignObj])
    | (rw [e2, f2, sum_map_eraseIdx _ L i hi, hzero]; simp [zeroCampaignObj])
    | (rw [e3, f3, sum_map_eraseIdx _ L i hi, hzero]; simp [zeroCampaignObj])
    | (rw [e4, f4, sum_map_eraseIdx _ L i hi, hzero]; simp [zeroCampaignObj])
    | (rw [e5, f5, sum_map_eraseIdx _ L i hi, hzero]; simp [zeroCampaignObj])

/-- Witness for C1: three campaigns, campaign "2" times out; its record
is the zero default at position 1, the counts are 3, and every total
equals the total over campaigns "1" and "3" alone. -/
theorem campaign_failure_recovered_zero_contribution_witness :
    failsOrEmpty (fW "2") = true ∧
    ((aggregate [campW1, campW2, campW3] fW).recent_campaignsMA[1]? =
        some (zeroCampaignObj campW2) ∧
      (aggregate [campW1, campW2, campW3] fW).active_campaigns = 3 ∧
      (aggregate [campW1, campW2, campW3] fW).recent_campaigns_total = 3 ∧
      (aggregate [campW1, campW2, campW3] fW).total_impressions
        = (aggregate [campW1, campW3] fW).total_impressions ∧
      (aggregate [campW1, campW2, campW3] fW).total_clicks
        = (aggregate [campW1, campW3] fW).total_clicks ∧
      (aggregate [campW1, campW2, campW3] fW).spent
        = (aggregate [campW1, campW3] fW).spent ∧
      (aggregate [campW1, campW2, campW3] fW).conversions
        = (aggregate [campW1, campW3] fW).conversions ∧
      (aggregate [campW1, campW2, campW3] fW).engajamento
        = (aggregate [campW1, campW3] fW).engajamento) :=
  ⟨rfl,
    campaign_failure_recovered_zero_contribution envW
      (aggregate [campW1, campW2, campW3] fW) [campW1, campW2, campW3] 1
      rfl rfl (by decide) rfl⟩

/-- C2 (code bug): when the campaign listing fails with HTTP 401, the
pipeline builds `HTTPException(502, ...)` with the upstream status and
body embedded in the detail, but the handler's blanket
`except Exception` catches that very exception and re-raises it as
status 500 — the caller receives an internal-error response, not the
gateway-class one, whatever the per-campaign fetches would do (none is
attempted: the result is the same for every `f`). -/
theorem listing_failure_delivered_as_internal_500
    (f : String → HttpResp InsightsJson) :
    get_metrics ⟨some "123", some "tok"⟩
        ⟨.resp 200 "" ⟨some [itemB]⟩, .resp 401 "unauthorized" ⟨none⟩, f⟩ =
      .error ⟨500, "502: Erro de conexão: Erro 401: unauthorized"⟩ := rfl

/-- C3 counterexample: a request whose listing call succeeds (one
campaign listed) and whose input is well-formed still fails — the
account-level insights call returned an empty data list, and the
pipeline raises 404. -/
theorem empty_account_insights_raises_404 :
    listingOf env404 = some [campW1] ∧
    fetch_metrics env404 = .error ⟨404, "Nenhum dado de insights encontrado."⟩ :=
  ⟨rfl, rfl⟩

/-- C3 amended: the pipeline raises exactly when the account-insights
fetch fails, the campaign-listing fetch fails, or the account-insights
data list is empty or absent; an empty campaigns `data` array (and any
per-campaign outcome) never makes it fail. -/
theorem pipeline_error_characterization (env : Env) :
    (∃ e, fetch_metrics env = .error e) ↔
      ((∃ m, fetchJson env.insightsResp = .error m) ∨
       (∃ m, fetchJson env.campaignsResp = .error m) ∨
       (∃ ins, fetchJson env.insightsResp = .ok ins ∧ ins.data.getD [] = [])) := by
  unfold fetch_metrics
  cases hins : fetchJson env.insightsResp with
  | error e => simp [hins]
  | ok ins =>
    cases hcamps : fetchJson env.campaignsResp with
    | error e => simp [hins, hcamps]
    | ok camps =>
      cases hd : ins.data with
      | none => simp [hins, hcamps, hd]
      | some l =>
        cases l with
        | nil => simp [hins, hcamps, hd]
        | cons a t => simp [hins, hcamps, hd]

/-- C4 counterexample: a campaign whose upstream row has spend 10 and
clicks 5 but a `cpc` field of "7.5" is reported with cpc "7.50", not
with the Ratio Calculator's spend/clicks = 2.00 — the per-campaign cpc
is copied from the upstream ratio field. -/
theorem campaign_cpc_not_from_spend_clicks :
    (get_campaign_insights fC4 campW1).cpc = "7.50" ∧
    format_currency (cpc_calc (tryFloat itemC4.spend) (tryFloat itemC4.clicks)) = "2.00" ∧
    (get_campaign_insights fC4 campW1).cpc ≠
      format_currency (cpc_calc (tryFloat itemC4.spend) (tryFloat itemC4.clicks)) := by
  have h1 : (get_campaign_insights fC4 campW1).cpc = "7.50" := by
    with_unfolding_all rfl
  have h2 : format_currency (cpc_calc (tryFloat itemC4.spend) (tryFloat itemC4.clicks))
      = "2.00" := by
    with_unfolding_all rfl
  exact ⟨h1, h2, by rw [h1, h2]; decide⟩

/-- C4 amended: on a successful fetch with nonempty data, the
per-campaign ctr is computed from that campaign's own coerced clicks and
impressions and rendered fixed two-decimal, while the per-campaign cpc
is the upstream-provided cpc field, coerced and rendered fixed
two-decimal (not recomputed from spend and clicks). -/
theorem campaign_ratio_rendering
    (f : String → HttpResp InsightsJson) (camp : Campaign)
    (j : InsightsJson) (item : InsightItem) (rest : List InsightItem)
    (hfetch : fetchJson (f (camp.id.getD "")) = .ok j)
    (hdata : j.data = some (item :: rest)) :
    (get_campaign_insights f camp).ctr
      = format_percentage (ctr_calc (tryFloat item.clicks) (tryFloat item.impressions)) ∧
    (get_campaign_insights f camp).cpc = format_currency (tryFloat item.cpc) := by
  unfold get_campaign_insights
  simp [hfetch, hdata]

/-- Witness for C4's amended theorem at the concrete row `itemC4`. -/
theorem campaign_ratio_rendering_witness :
    fetchJson (fC4 (campW1.id.getD "")) = .ok ⟨some [itemC4]⟩ ∧
    (⟨some [itemC4]⟩ : InsightsJson).data = some [itemC4] ∧
    ((get_campaign_insights fC4 campW1).ctr
        = format_percentage (ctr_calc (tryFloat itemC4.clicks) (tryFloat itemC4.impressions)) ∧
      (get_campaign_insights fC4 campW1).cpc = format_currency (tryFloat itemC4.cpc)) :=
  ⟨rfl, rfl, campaign_ratio_rendering fC4 campW1 ⟨some [itemC4]⟩ itemC4 [] rfl rfl⟩

/-- C9 counterexample: the rejection of a body with empty `account_id`
and no `access_token` is a 400 whose detail is the Portuguese sentence
of `main.py` line 247, not the string "missing account_id or
access_token". -/
theorem validation_message_differs :
    get_metrics ⟨some "", none⟩ envW =
      .error ⟨400, "É necessário fornecer 'account_id' e 'access_token' no body."⟩ ∧
    "É necessário fornecer 'account_id' e 'access_token' no body." ≠
      "missing account_id or access_token" :=
  ⟨rfl, by decide⟩

/-- C9 amended: a request in which `account_id` or `access_token` is
absent or empty is rejected with the client-error 400 and the handler's
fixed detail message, before the pipeline runs — the response is
identical for every upstream environment, so no network call can have
been involved. -/
theorem validation_short_circuit (payload : Payload) (env env2 : Env)
    (h : pyFalsy payload.account_id = true ∨ pyFalsy payload.access_token = true) :
    get_metrics payload env =
      .error ⟨400, "É necessário fornecer 'account_id' e 'access_token' no body."⟩ ∧
    get_metrics payload env = get_metrics payload env2 := by
  have hcond : (pyFalsy payload.account_id || pyFalsy payload.access_token) = true := by
    cases h with
    | inl h => simp [h]
    | inr h => simp [h]
  unfold get_metrics
  rw [hcond]
  simp

/-- Witness for C9's amended theorem: empty `account_id`, no token. -/
theorem validation_short_circuit_witness :
    (pyFalsy (some "") = true ∨ pyFalsy (none : Option String) = true) ∧
    (get_metrics ⟨some "", none⟩ envW =
        .error ⟨400, "É necessário fornecer 'account_id' e 'access_token' no body."⟩ ∧
      get_metrics ⟨some "", none⟩ envW = get_metrics ⟨some "", none⟩ env404) :=
  ⟨Or.inl rfl, validation_short_circuit ⟨some "", none⟩ envW env404 (Or.inl rfl)⟩

set_option maxRecDepth 8000 in
/-- C10: when the pipeline's gates pass (account insights 200 with
nonempty data, listing 200) and the listing's data list is empty, the
response is the all-zero aggregate: counts 0, empty campaign list, zero
totals, ctr "0.00%", cpc "0.00". -/
theorem empty_listing_zero_aggregate (env : Env) (ins : InsightsJson)
    (x : InsightItem) (xs : List InsightItem) (camps : CampaignsJson)
    (h1 : fetchJson env.insightsResp = .ok ins) (h2 : ins.data = some (x :: xs))
    (h3 : fetchJson env.campaignsResp = .ok camps) (h4 : camps.data.getD [] = []) :
    fetch_metrics env = .ok ⟨0, 0, 0, "0.00%", "0.00", 0, 0, 0, 0, []⟩ := by
  have hagg : aggregate [] env.campaignInsights
      = ⟨0, 0, 0, "0.00%", "0.00", 0, 0, 0, 0, []⟩ := by
    simp only [aggregate, List.map_nil, List.sum_nil, List.length_nil]
    with_unfolding_all rfl
  unfold fetch_metrics
  rw [h1]
  dsimp only
  rw [h3, h2]
  dsimp only
  rw [h4, hagg]

/-- Witness for C10: both calls answer 200, empty campaign listing. -/
theorem empty_listing_zero_aggregate_witness :
    fetchJson envEmptyListing.insightsResp = .ok ⟨some [itemB]⟩ ∧
    (⟨some [itemB]⟩ : InsightsJson).data = some [itemB] ∧
    fetchJson envEmptyListing.campaignsResp = .ok ⟨some []⟩ ∧
    ((⟨some []⟩ : CampaignsJson).data.getD [] = ([] : List Campaign)) ∧
    fetch_metrics envEmptyListing = .ok ⟨0, 0, 0, "0.00%", "0.00", 0, 0, 0, 0, []⟩ :=
  ⟨rfl, rfl, rfl, rfl,
    empty_listing_zero_aggregate envEmptyListing ⟨some [itemB]⟩ itemB []
      ⟨some []⟩ rfl rfl rfl rfl⟩

/-- C8 counterexample: under the claim's literal rule — the first
3-character budget includes the `%` suffix — the value 1.0 renders as
"1%" ("1.0%" has 4 characters, so the rule falls back to the integer
part), contradicting the claim's own example `truncate_ctr(1.0) =
"1.0%"`. -/
theorem truncate_ctr_rule_contradicts_example :
    truncate_ctr_claim 1 = "1%" ∧ truncate_ctr_claim 1 ≠ "1.0%" := by
  have h : truncate_ctr_claim 1 = "1%" := by with_unfolding_all rfl
  exact ⟨h, by rw [h]; decide⟩

/-- C8 amended (spec-modelled): with the first 3-character check applied
to the numeric part before the `%` is appended, the truncation mode
meets every worked example of the spec: `truncate_cpc(0.27) = "0.2"`,
`truncate_ctr(1.0) = "1.0%"`, `truncate_cpc(147.2) = "147"`,
`truncate_ctr(147.2) = "14%"`, and the one-decimal stage truncates
(never rounds): 17.89 renders as "17.8". -/
theorem truncate_mode_exactness :
    truncate_cpc (27/100) = "0.2" ∧ truncate_ctr 1 = "1.0%" ∧
    truncate_cpc (736/5) = "147" ∧ truncate_ctr (736/5) = "14%" ∧
    truncate1dec (1789/100) = "17.8" := by
  refine ⟨?_, ?_, ?_, ?_, ?_⟩ <;> with_unfolding_all rfl
